import Mathlib

/-!
Verification development for the SnapMerge repository
(`src/snapmerge/core.py`, `src/snapmerge/helpers.py`).

The Python code is shallowly embedded: the filesystem entries the
functions inspect become an inductive `FNode`, the PIL / moviepy
capabilities become small pure functions recording the observable
sizes and paths, and every Python `raise` site becomes a constructor
of `PyErr`.  `pathlib.Path.stem` / `.suffix` / `.with_suffix` are
reproduced from CPython's implementation.
-/

namespace SnapMerge

/-! ### String and path helpers (pathlib semantics) -/

/-- Does `pat` occur as a contiguous sublist of the second argument? -/
def hasInfixAux (pat : List Char) : List Char → Bool
  | [] => pat.isEmpty
  | c :: rest => pat.isPrefixOf (c :: rest) || hasInfixAux pat rest

/-- Case-sensitive substring test: Python `pat in s`. -/
def strContains (s pat : String) : Bool :=
  hasInfixAux pat.toList s.toList

/-- Python `str.lower()` (the inputs here are ASCII names and format ids). -/
def strLower (s : String) : String :=
  String.mk (s.toList.map Char.toLower)

/-- Index of the last `'.'` in the character list (Python `str.rfind`). -/
def rfindDot (cs : List Char) : Option Nat :=
  match cs.reverse.findIdx? (fun c => c == '.') with
  | none => none
  | some j => some (cs.length - 1 - j)

/-- `pathlib.PurePath.suffix`: the final extension, nonempty only when the last
dot sits strictly inside the name (`0 < i < len - 1`). -/
def psuffix (name : String) : String :=
  let cs := name.toList
  match rfindDot cs with
  | some i => if 0 < i ∧ i < cs.length - 1 then String.mk (cs.drop i) else ""
  | none => ""

/-- `pathlib.PurePath.stem`: name without `psuffix`. -/
def pstem (name : String) : String :=
  let cs := name.toList
  match rfindDot cs with
  | some i => if 0 < i ∧ i < cs.length - 1 then String.mk (cs.take i) else name
  | none => name

/-- `pathlib.PurePath.with_suffix`: drop the old suffix, append the new one. -/
def with_suffix (name newSuf : String) : String :=
  pstem name ++ newSuf

/-! ### Filesystem model

A node is what probing a path reveals: `imageFile` decodes with PIL,
`videoFile` opens with moviepy, `archiveFile` extracts with `shutil`
(its `entries` are the top-level extracted entries), `otherFile` is an
existing regular file that none of the probes accept, `dirNode` is a
directory with its direct children.  `Option FNode` stands for a path:
`none` means nothing exists there. -/

inductive FNode where
  | imageFile (name : String) (size : Nat) (fmt : String) (w h : Nat)
  | videoFile (name : String) (size : Nat) (w h dur : Nat)
  | archiveFile (name : String) (size : Nat) (entries : List FNode)
  | otherFile (name : String) (size : Nat)
  | dirNode (name : String) (children : List FNode)

def fname : FNode → String
  | .imageFile n _ _ _ _ => n
  | .videoFile n _ _ _ _ => n
  | .archiveFile n _ _ => n
  | .otherFile n _ => n
  | .dirNode n _ => n

/-- `Path.exists()` on the modelled path. -/
def fexists : Option FNode → Bool
  | none => false
  | some _ => true

/-- `Path.is_file()`. -/
def fisfile : Option FNode → Bool
  | some (.imageFile ..) => true
  | some (.videoFile ..) => true
  | some (.archiveFile ..) => true
  | some (.otherFile ..) => true
  | _ => false

/-- `Path.is_dir()`. -/
def fisdir : Option FNode → Bool
  | some (.dirNode ..) => true
  | _ => false

def fnameOpt : Option FNode → String
  | some n => fname n
  | none => ""

/-! ### Error taxonomy: one constructor per Python `raise` site -/

inductive Role where
  | overlayRole
  | mediaRole
  deriving Repr, DecidableEq

inductive PyErr where
  /-- `core.get_media_and_overlay_file`: `ValueError("Directory does not exist: ...")`. -/
  | dirNotFound (dir : String)
  /-- `core.get_media_and_overlay_file`: `ValueError("Expected exactly 1 <role> file, found <count> in <dir>")`. -/
  | pairingError (role : Role) (dir : String) (count : Nat)
  /-- `core._unpack_archive`: `FileNotFoundError("Archive dir not found: ...")`. -/
  | archiveNotFound (p : String)
  /-- `core._unpack_archive`: `ValueError("Unsupported archive format: ...")`. -/
  | unsupportedArchiveFormat (p : String)
  /-- `shutil.unpack_archive` failing on a file whose bytes are not an archive. -/
  | archiveReadError (p : String)
  /-- `core._unpack_archive`: `ValueError("Archive must contain exactly 2 files: ...")`. -/
  | archiveNotTwoFiles (p : String)
  /-- `core.combine_media`: `FileNotFoundError("Media file not found: ...")`. -/
  | mediaNotFound (p : String)
  /-- `core.combine_media`: `FileNotFoundError("Overlay file not found: ...")`. -/
  | overlayNotFound (p : String)
  /-- `core.combine_media`: `ValueError("Output path should not have an extension: ...")`. -/
  | outputHasExtension (p : String)
  /-- PIL `Image.open` on a file it cannot identify as an image. -/
  | cannotIdentifyImage (p : String)
  /-- moviepy `VideoFileClip` on a file it cannot read. -/
  | cannotReadVideo (p : String)
  /-- PIL `Image.alpha_composite` on images of different sizes (`ValueError`). -/
  | compositeSizeMismatch
  /-- `core.combine_media`: `ValueError("Unsupported media type: ...")`. -/
  | unsupportedMediaType (p : String)
  /-- `helpers._get_image_extension`: `ValueError("File is not an image or doesn't exist ...")`. -/
  | notAnImage (p : String)
  /-- Python `AttributeError` from attribute lookup on a value lacking it. -/
  | attributeError (msg : String)
  /-- `core.process_data`: `ValueError("Input directory does not exist: ...")`. -/
  | inputDirNotFound (p : String)
  /-- `core.process_data`: `ValueError("Unsupported file: ...")`. -/
  | unsupportedFile (p : String)
  deriving Repr, DecidableEq

/-! ### helpers.py -/

/-- `helpers._is_image`: exists, is a regular file, and PIL opens it. -/
def _is_image : Option FNode → Bool
  | some (.imageFile ..) => true
  | _ => false

/-- `helpers._is_video`: exists, is a regular file, and moviepy opens it. -/
def _is_video : Option FNode → Bool
  | some (.videoFile ..) => true
  | _ => false

/-- `helpers._is_media`. -/
def _is_media (p : Option FNode) : Bool :=
  _is_image p || _is_video p

/-- `helpers._get_image_extension`: `image.format.lower()` of the decoded
image, `ValueError` when the path does not exist or is not an image. -/
def _get_image_extension : Option FNode → Except PyErr String
  | some (.imageFile _ _ fmt _ _) => .ok (strLower fmt)
  | p => .error (.notAnImage (fnameOpt p))

/-- `helpers._is_archive`: `path.suffix.lower()` is in the supported set.
Note `psuffix` only ever yields the final dotted component. -/
def _is_archive (name : String) : Bool :=
  strLower (psuffix name) ∈ [".zip", ".tar", ".tar.gz", ".tgz"]

/-- A Python value that is either a `str` or a `pathlib.Path`; used to model
the dynamically-typed argument of `helpers._already_exists`. -/
inductive PyStrPath where
  | pystr (s : String)
  | pypath (s : String)
  deriving Repr, DecidableEq

/-- Python attribute lookup `value.stem`: `Path` has the attribute,
`str` does not, so the lookup raises `AttributeError`. -/
def attr_stem : PyStrPath → Except PyErr String
  | .pypath s => .ok (pstem s)
  | .pystr _ => .error (.attributeError "str object has no attribute stem")

def is_file_node : FNode → Bool
  | .dirNode .. => false
  | _ => true

/-- `helpers._already_exists`: `name = name.stem.lower()` then scan the
output directory listing for a regular file with the same lowercased stem. -/
def _already_exists (name : PyStrPath) (outFiles : List FNode) : Except PyErr Bool :=
  match attr_stem name with
  | .error e => .error e
  | .ok st =>
    let st := strLower st
    .ok (outFiles.any (fun f => is_file_node f && (strLower (pstem (fname f)) == st)))

/-! ### core.get_media_and_overlay_file -/

/-- Filter used for the overlay role: `"overlay" in f.name.lower() and _is_image(f)`. -/
def overlay_candidate (f : FNode) : Bool :=
  strContains (strLower (fname f)) "overlay" && _is_image (some f)

/-- Filter used for the media role: `"main" in f.name.lower() and _is_media(f)`. -/
def media_candidate (f : FNode) : Bool :=
  strContains (strLower (fname f)) "main" && _is_media (some f)

/-- `core.get_media_and_overlay_file`: unique overlay candidate first,
then unique media candidate, else `ValueError` naming directory and count. -/
def get_media_and_overlay_file (d : Option FNode) : Except PyErr (FNode × FNode) :=
  match d with
  | some (.dirNode dname children) =>
      match children.filter overlay_candidate with
      | [o] =>
          match children.filter media_candidate with
          | [m] => .ok (m, o)
          | ms => .error (.pairingError .mediaRole dname ms.length)
      | os => .error (.pairingError .overlayRole dname os.length)
  | p => .error (.dirNotFound (fnameOpt p))

/-! ### PIL / moviepy capability model

Only the observable geometry is modelled: an in-memory image is its
pixel dimensions (`convert` keeps them, `resize` replaces them,
`alpha_composite` demands equal sizes and keeps them). -/

structure Img where
  w : Nat
  h : Nat
  deriving Repr, DecidableEq

/-- `PIL.Image.open(path).convert("RGBA")`: dimensions of the decoded image. -/
def image_open_rgba : Option FNode → Except PyErr Img
  | some (.imageFile _ _ _ w h) => .ok ⟨w, h⟩
  | p => .error (.cannotIdentifyImage (fnameOpt p))

/-- `img.resize(target)`: an image of the target dimensions. -/
def image_resize (_img target : Img) : Img :=
  target

/-- `PIL.Image.alpha_composite(a, b)`: requires equal sizes, keeps them. -/
def alpha_composite (a b : Img) : Except PyErr Img :=
  if a = b then .ok a else .error .compositeSizeMismatch

structure VideoClip where
  size : Img
  duration : Nat
  deriving Repr, DecidableEq

/-- `moviepy.VideoFileClip(path)`: frame dimensions and duration. -/
def video_open : Option FNode → Except PyErr VideoClip
  | some (.videoFile _ _ w h dur) => .ok ⟨⟨w, h⟩, dur⟩
  | p => .error (.cannotReadVideo (fnameOpt p))

/-- `moviepy.ImageClip(path)`: a still clip at the image file's own dimensions. -/
def image_clip_open : Option FNode → Except PyErr Img
  | some (.imageFile _ _ _ w h) => .ok ⟨w, h⟩
  | p => .error (.cannotIdentifyImage (fnameOpt p))

/-- Observable outcome of `core.combine_media`: the path written plus, for
images, the two inputs of `alpha_composite` and the saved result; for
videos, the overlay clip actually composited, the duration it is held for,
whether it is centered, and the video frame size. -/
inductive CombineOut where
  | imageOut (outPath : String) (mediaAtComposite overlayAtComposite : Img) (result : Img)
  | videoOut (outPath : String) (overlayClipSize : Img) (duration : Nat) (centered : Bool)
      (videoSize : Img)
  deriving Repr, DecidableEq

/-! ### core.combine_media -/

/-- `core.combine_media`, lines 76-137 of `core.py`, translated branch by
branch.  In the video branch the source resizes the PIL image in memory but
builds `ImageClip` from `overlay_path`, so the resized copy (`_ovlResized`
below) is discarded, exactly as in the source. -/
def combine_media (media overlay : Option FNode) (output_path : String) :
    Except PyErr CombineOut :=
  if !(fexists media) || !(fisfile media) then
    .error (.mediaNotFound (fnameOpt media))
  else if !(fexists overlay) || !(fisfile overlay) then
    .error (.overlayNotFound (fnameOpt overlay))
  else if psuffix output_path ≠ "" then
    .error (.outputHasExtension output_path)
  else if _is_image media then
    match _get_image_extension media with
    | .error e => .error e
    | .ok ext =>
      match image_open_rgba overlay with
      | .error e => .error e
      | .ok ovl =>
        match image_open_rgba media with
        | .error e => .error e
        | .ok med =>
          let ovl := if med ≠ ovl then image_resize ovl med else ovl
          match alpha_composite med ovl with
          | .error e => .error e
          | .ok combined =>
            .ok (.imageOut (with_suffix output_path ("." ++ ext)) med ovl combined)
  else if _is_video media then
    match video_open media with
    | .error e => .error e
    | .ok video =>
      match image_open_rgba overlay with
      | .error e => .error e
      | .ok ovl =>
        let _ovlResized := if video.size ≠ ovl then image_resize ovl video.size else ovl
        match image_clip_open overlay with
        | .error e => .error e
        | .ok overlay_clip =>
          .ok (.videoOut (with_suffix output_path ".mp4") overlay_clip video.duration true
                video.size)
  else
    .error (.unsupportedMediaType (fnameOpt media))

/-! ### core._unpack_archive

`tempfile.TemporaryDirectory` is modelled by an explicit scratch-directory
state: `withTempDirRun` allocates a fresh directory, runs the body, and
removes the directory again whatever the body returned — exactly the
context-manager guarantee.  `_unpack_archive` is a `@contextmanager`, so it
is modelled in continuation style: the caller's body runs inside the scope. -/

structure ScratchState where
  active : List Nat
  next : Nat
  deriving Repr, DecidableEq

/-- `with tempfile.TemporaryDirectory() as tmp:` — allocate, run, always remove. -/
def withTempDirRun {α : Type} (st : ScratchState)
    (body : Nat → ScratchState → Except PyErr α × ScratchState) :
    Except PyErr α × ScratchState :=
  let tmp := st.next
  let st1 : ScratchState := ⟨tmp :: st.active, st.next + 1⟩
  let (r, st2) := body tmp st1
  (r, ⟨st2.active.erase tmp, st2.next⟩)

/-- `shutil.unpack_archive`: succeeds with the top-level extracted entries
when the bytes really are an archive, raises otherwise. -/
def shutil_unpack : Option FNode → Option (List FNode)
  | some (.archiveFile _ _ entries) => some entries
  | _ => none

/-- `core._unpack_archive`, lines 53-73 of `core.py`: validation, scoped
extraction, two-entry check, then the caller's body (`caller`) inside the
scope. -/
def _unpack_archive {α : Type} (archive : Option FNode) (st : ScratchState)
    (caller : List FNode → ScratchState → Except PyErr α × ScratchState) :
    Except PyErr α × ScratchState :=
  if !(fexists archive) || !(fisfile archive) then
    (.error (.archiveNotFound (fnameOpt archive)), st)
  else if !(_is_archive (fnameOpt archive)) then
    (.error (.unsupportedArchiveFormat (fnameOpt archive)), st)
  else
    withTempDirRun st (fun _tmp st1 =>
      match shutil_unpack archive with
      | none => (.error (.archiveReadError (fnameOpt archive)), st1)
      | some entries =>
        if entries.length ≠ 2 then
          (.error (.archiveNotTwoFiles (fnameOpt archive)), st1)
        else
          caller entries st1)

/-! ### core.process_data -/

/-- The file a successful `combine_media` leaves in the output directory. -/
def writtenNode : CombineOut → FNode
  | .imageOut p _ _ r => .imageFile p 0 (psuffix p) r.w r.h
  | .videoOut p _ dur _ size => .videoFile p 0 size.w size.h dur

/-- `shutil.copy2(entry, output_dir / newName)`: the same file under a new name. -/
def renameNode (f : FNode) (newName : String) : FNode :=
  match f with
  | .imageFile _ sz fmt w h => .imageFile newName sz fmt w h
  | .videoFile _ sz w h dur => .videoFile newName sz w h dur
  | .archiveFile _ sz es => .archiveFile newName sz es
  | .otherFile _ sz => .otherFile newName sz
  | .dirNode _ cs => .dirNode newName cs

/-- Pairing plus composite, the body run inside `_unpack_archive`'s scope
(and used directly for the directory branch). -/
def pairAndCombine (tmpName : String) (tmpEntries : List FNode) (outBase : String)
    (st : ScratchState) : Except PyErr CombineOut × ScratchState :=
  match get_media_and_overlay_file (some (.dirNode tmpName tmpEntries)) with
  | .error e => (.error e, st)
  | .ok (media, overlay) =>
    (combine_media (some media) (some overlay) outBase, st)

/-- One iteration of the `for entry in input_dir.iterdir()` loop of
`core.process_data` (lines 168-191).  `out` is the live listing of the
output directory at the time this entry is handled; the returned listing
includes any file this entry wrote.  Note the source passes `entry.stem`
(a `str`) to `_already_exists`, which looks up `.stem` on it. -/
def processEntry (overwrite : Bool) (out : List FNode) (st : ScratchState) (entry : FNode) :
    Except PyErr (List FNode) × ScratchState :=
  let base_name := pstem (fname entry)
  match _already_exists (.pystr base_name) out with
  | .error e => (.error e, st)
  | .ok ex =>
    if ex && !overwrite then (.ok out, st)
    else if _is_archive (fname entry) then
      match _unpack_archive (some entry) st (fun tmpEntries st1 =>
              pairAndCombine "tmp" tmpEntries base_name st1) with
      | (.error e, st2) => (.error e, st2)
      | (.ok cr, st2) => (.ok (out ++ [writtenNode cr]), st2)
    else if fisdir (some entry) then
      match pairAndCombine (fname entry) (match entry with
              | .dirNode _ cs => cs
              | _ => []) base_name st with
      | (.error e, st2) => (.error e, st2)
      | (.ok cr, st2) => (.ok (out ++ [writtenNode cr]), st2)
    else if _is_video (some entry) then
      (.ok (out ++ [entry]), st)
    else if _is_image (some entry) then
      match _get_image_extension (some entry) with
      | .error e => (.error e, st)
      | .ok ext => (.ok (out ++ [renameNode entry (pstem (fname entry) ++ "." ++ ext)]), st)
    else
      (.error (.unsupportedFile (fname entry)), st)

/-- The loop of `core.process_data`: fail-fast, threading the live output
directory listing and the scratch state. -/
def processLoop (overwrite : Bool) :
    List FNode → List FNode → ScratchState → Except PyErr (List FNode) × ScratchState
  | [], out, st => (.ok out, st)
  | entry :: rest, out, st =>
    match processEntry overwrite out st entry with
    | (.error e, st2) => (.error e, st2)
    | (.ok out2, st2) => processLoop overwrite rest out2 st2

/-- `core.process_data`, lines 144-193 of `core.py`.  `input` is the input
directory path, `outInit` the listing of the output directory when the run
starts; the result is the final listing of the output directory. -/
def process_data (input : Option FNode) (outInit : List FNode) (overwrite : Bool)
    (st : ScratchState) : Except PyErr (List FNode) × ScratchState :=
  match input with
  | some (.dirNode _ children) => processLoop overwrite children outInit st
  | p => (.error (.inputDirNotFound (fnameOpt p)), st)

/-! ### Shared proof helpers -/

/-- The overlay-resize step of the image branch always yields the media's
dimensions: either the sizes differ and the overlay is resized to `med`,
or they already coincide. -/
theorem if_resize_eq (med ovl : Img) :
    (if med ≠ ovl then image_resize ovl med else ovl) = med := by
  by_cases h : med = ovl
  · simp [h]
  · simp [h, image_resize]

/-! ### Claims -/

/-- Claim C1: for every directory whose direct children contain zero or more
than one image file with "overlay" (case-insensitive) in its name, or zero or
more than one image-or-video file with "main" (case-insensitive) in its name,
`get_media_and_overlay_file` fails with a pairing error naming the directory
and the count found; the overlay role is checked first. -/
theorem C1_pairing_uniqueness (dname : String) (children : List FNode)
    (h : (children.filter overlay_candidate).length ≠ 1 ∨
         (children.filter media_candidate).length ≠ 1) :
    get_media_and_overlay_file (some (.dirNode dname children)) =
      .error (.pairingError
        (if (children.filter overlay_candidate).length ≠ 1 then Role.overlayRole
         else Role.mediaRole)
        dname
        (if (children.filter overlay_candidate).length ≠ 1 then
          (children.filter overlay_candidate).length
         else (children.filter media_candidate).length)) := by
  rcases ho : children.filter overlay_candidate with _ | ⟨o, _ | ⟨o2, os⟩⟩
  · simp [get_media_and_overlay_file, ho]
  · rcases hm : children.filter media_candidate with _ | ⟨m, _ | ⟨m2, ms⟩⟩
    · simp [get_media_and_overlay_file, ho, hm]
    · exfalso
      rcases h with h | h
      · rw [ho] at h
        simp at h
      · rw [hm] at h
        simp at h
    · simp [get_media_and_overlay_file, ho, hm]
  · simp [get_media_and_overlay_file, ho]

/-- Witness for C1 at the empty directory: zero overlay candidates, so the
pairing fails naming count `0` for the overlay role. -/
theorem C1_pairing_uniqueness_witness :
    ((([] : List FNode).filter overlay_candidate).length ≠ 1 ∨
     (([] : List FNode).filter media_candidate).length ≠ 1) ∧
    get_media_and_overlay_file (some (.dirNode "memories" [])) =
      .error (.pairingError
        (if (([] : List FNode).filter overlay_candidate).length ≠ 1 then Role.overlayRole
         else Role.mediaRole)
        "memories"
        (if (([] : List FNode).filter overlay_candidate).length ≠ 1 then
          (([] : List FNode).filter overlay_candidate).length
         else (([] : List FNode).filter media_candidate).length)) :=
  ⟨Or.inl (by decide), C1_pairing_uniqueness "memories" [] (Or.inl (by decide))⟩

/-- Claim C2: compositing an image media file of dimensions `W×H` with an
overlay image of any dimensions `ow×oh` yields an output image of dimensions
`W×H`: the media enters `alpha_composite` at its own size, the overlay enters
at the media's size, and the saved result has the media's size. -/
theorem C2_roundtrip_dimensions (mname mfmt oname ofmt base : String)
    (msz osz W H ow oh : Nat) (hbase : psuffix base = "") :
    ∃ p, combine_media (some (.imageFile mname msz mfmt W H))
        (some (.imageFile oname osz ofmt ow oh)) base =
      .ok (.imageOut p ⟨W, H⟩ ⟨W, H⟩ ⟨W, H⟩) := by
  refine ⟨with_suffix base ("." ++ strLower mfmt), ?_⟩
  by_cases h1 : W = ow
  · by_cases h2 : H = oh
    · subst h1
      subst h2
      simp [combine_media, fexists, fisfile, hbase, _is_image, _is_video,
        _get_image_extension, image_open_rgba, image_resize, alpha_composite]
    · simp [combine_media, fexists, fisfile, hbase, _is_image, _is_video,
        _get_image_extension, image_open_rgba, image_resize, alpha_composite, h2]
  · simp [combine_media, fexists, fisfile, hbase, _is_image, _is_video,
      _get_image_extension, image_open_rgba, image_resize, alpha_composite, h1]

/-- Witness for C2: an 800×600 JPEG media with a 400×300 overlay produces an
800×600 output. -/
theorem C2_roundtrip_dimensions_witness :
    psuffix "bundle" = "" ∧
    ∃ p, combine_media (some (.imageFile "x_main.jpg" 3 "JPEG" 800 600))
        (some (.imageFile "x_overlay.png" 2 "PNG" 400 300)) "bundle" =
      .ok (.imageOut p ⟨800, 600⟩ ⟨800, 600⟩ ⟨800, 600⟩) :=
  ⟨by decide,
   C2_roundtrip_dimensions "x_main.jpg" "JPEG" "x_overlay.png" "PNG" "bundle"
     3 2 800 600 400 300 (by decide)⟩

/-- Claim C3: the path written by the image branch of `combine_media` carries
the extension of the media's native decoded format (`image.format.lower()`);
in particular a PNG main image yields `<base>.png` and a JPEG main image
yields `<base>.jpeg`, never a forced different kind. -/
theorem C3_extension_fidelity (mname mfmt oname ofmt base : String)
    (msz osz W H ow oh : Nat) (hbase : psuffix base = "") :
    (∃ a b c, combine_media (some (.imageFile mname msz mfmt W H))
        (some (.imageFile oname osz ofmt ow oh)) base =
      .ok (.imageOut (with_suffix base ("." ++ strLower mfmt)) a b c)) ∧
    (mfmt = "PNG" → with_suffix base ("." ++ strLower mfmt) = pstem base ++ ".png") ∧
    (mfmt = "JPEG" → with_suffix base ("." ++ strLower mfmt) = pstem base ++ ".jpeg") := by
  refine ⟨⟨⟨W, H⟩, ⟨W, H⟩, ⟨W, H⟩, ?_⟩, ?_, ?_⟩
  · by_cases h1 : W = ow
    · by_cases h2 : H = oh
      · subst h1
        subst h2
        simp [combine_media, fexists, fisfile, hbase, _is_image, _is_video,
          _get_image_extension, image_open_rgba, image_resize, alpha_composite]
      · simp [combine_media, fexists, fisfile, hbase, _is_image, _is_video,
          _get_image_extension, image_open_rgba, image_resize, alpha_composite, h2]
    · simp [combine_media, fexists, fisfile, hbase, _is_image, _is_video,
        _get_image_extension, image_open_rgba, image_resize, alpha_composite, h1]
  · intro hm
    subst hm
    show pstem base ++ ("." ++ strLower "PNG") = pstem base ++ ".png"
    rw [show ("." ++ strLower "PNG") = ".png" from by decide]
  · intro hm
    subst hm
    show pstem base ++ ("." ++ strLower "JPEG") = pstem base ++ ".jpeg"
    rw [show ("." ++ strLower "JPEG") = ".jpeg" from by decide]

/-- Witness for C3: a PNG media image yields a `.png` output path. -/
theorem C3_extension_fidelity_witness :
    psuffix "snap" = "" ∧
    ((∃ a b c, combine_media (some (.imageFile "pic_main.png" 3 "PNG" 10 20))
        (some (.imageFile "pic_overlay.png" 2 "PNG" 10 20)) "snap" =
      .ok (.imageOut (with_suffix "snap" ("." ++ strLower "PNG")) a b c)) ∧
    ("PNG" = "PNG" → with_suffix "snap" ("." ++ strLower "PNG") = pstem "snap" ++ ".png") ∧
    ("PNG" = "JPEG" → with_suffix "snap" ("." ++ strLower "PNG") = pstem "snap" ++ ".jpeg")) :=
  ⟨by decide,
   C3_extension_fidelity "pic_main.png" "PNG" "pic_overlay.png" "PNG" "snap"
     3 2 10 20 10 20 (by decide)⟩

/-- Claim C4 (refuted, code bug): for a 640×480 video of duration 2 and a
400×300 overlay, the video branch of `combine_media` holds the overlay for
the full duration at the center, but the overlay clip it composites is built
from the original overlay file at 400×300 — the in-memory resize to the video
dimensions is discarded, contradicting the function's own docstring. -/
theorem C4_video_overlay_not_resized :
    combine_media (some (.videoFile "clip_main.mp4" 2048 640 480 2))
        (some (.imageFile "clip_overlay.png" 512 "PNG" 400 300)) "clip" =
      .ok (.videoOut "clip.mp4" ⟨400, 300⟩ 2 true ⟨640, 480⟩) ∧
    (⟨400, 300⟩ : Img) ≠ (⟨640, 480⟩ : Img) :=
  ⟨rfl, by decide⟩

/-- Claim C5 (refuted, code bug): `process_data` passes `entry.stem`, a
`str`, to `_already_exists`, whose first statement reads `.stem` on it; this
raises `AttributeError` on the first entry of every run with a non-empty
input directory — with an empty destination and equally with the intended
output already present — so no second run can skip quietly. -/
theorem C5_second_run_attribute_error :
    (process_data (some (.dirNode "input" [.imageFile "photo.jpg" 10 "JPEG" 640 480]))
        [] false ⟨[], 0⟩).1 =
      .error (.attributeError "str object has no attribute stem") ∧
    (process_data (some (.dirNode "input" [.imageFile "photo.jpg" 10 "JPEG" 640 480]))
        [.imageFile "photo.jpeg" 10 "JPEG" 640 480] false ⟨[], 0⟩).1 =
      .error (.attributeError "str object has no attribute stem") :=
  ⟨rfl, rfl⟩

/-- Claim C6: whenever a validated archive extracts to a number of top-level
entries other than two, `_unpack_archive` fails with the two-files error; and
on every exit path — validation failure, extraction failure, wrong count, or
the caller's own success or failure — the scratch directories active after
the call are exactly those active before it. -/
theorem C6_archive_two_entry_invariant {α : Type} (arch : Option FNode)
    (st : ScratchState)
    (caller : List FNode → ScratchState → Except PyErr α × ScratchState)
    (hc : ∀ es s, (caller es s).2 = s) :
    (∀ name size entries, arch = some (.archiveFile name size entries) →
        _is_archive name = true → entries.length ≠ 2 →
        (_unpack_archive arch st caller).1 = .error (.archiveNotTwoFiles name)) ∧
    ((_unpack_archive arch st caller).2).active = st.active := by
  constructor
  · rintro name size entries rfl hfmt hlen
    simp [_unpack_archive, fexists, fisfile, fnameOpt, fname, hfmt,
      withTempDirRun, shutil_unpack, hlen]
  · rcases arch with _ | n
    · simp [_unpack_archive, fexists]
    · rcases n with ⟨nm, sz, fmt, w, h⟩ | ⟨nm, sz, w, h, d⟩ | ⟨nm, sz, es⟩ | ⟨nm, sz⟩ | ⟨nm, cs⟩
      · by_cases harc : _is_archive nm
        · simp [_unpack_archive, fexists, fisfile, fnameOpt, fname, harc,
            withTempDirRun, shutil_unpack]
        · simp [_unpack_archive, fexists, fisfile, fnameOpt, fname, harc]
      · by_cases harc : _is_archive nm
        · simp [_unpack_archive, fexists, fisfile, fnameOpt, fname, harc,
            withTempDirRun, shutil_unpack]
        · simp [_unpack_archive, fexists, fisfile, fnameOpt, fname, harc]
      · by_cases harc : _is_archive nm
        · by_cases hlen : es.length = 2
          · simp [_unpack_archive, fexists, fisfile, fnameOpt, fname, harc,
              withTempDirRun, shutil_unpack, hlen, hc]
          · simp [_unpack_archive, fexists, fisfile, fnameOpt, fname, harc,
              withTempDirRun, shutil_unpack, hlen]
        · simp [_unpack_archive, fexists, fisfile, fnameOpt, fname, harc]
      · by_cases harc : _is_archive nm
        · simp [_unpack_archive, fexists, fisfile, fnameOpt, fname, harc,
            withTempDirRun, shutil_unpack]
        · simp [_unpack_archive, fexists, fisfile, fnameOpt, fname, harc]
      · simp [_unpack_archive, fexists, fisfile]

/-- Witness for C6: a `.zip` extracting to a single entry fails with the
two-files error and leaves no scratch directory active. -/
theorem C6_archive_two_entry_invariant_witness :
    (∀ (es : List FNode) (s : ScratchState),
      ((fun (es : List FNode) (s : ScratchState) =>
          ((Except.ok es.length : Except PyErr Nat), s)) es s).2 = s) ∧
    _is_archive "bundle.zip" = true ∧
    ([FNode.otherFile "x_main.jpg" 1].length ≠ 2) ∧
    (_unpack_archive (some (.archiveFile "bundle.zip" 5 [.otherFile "x_main.jpg" 1]))
        ⟨[], 0⟩
        (fun (es : List FNode) (s : ScratchState) =>
          ((Except.ok es.length : Except PyErr Nat), s))).1 =
      .error (.archiveNotTwoFiles "bundle.zip") ∧
    ((_unpack_archive (some (.archiveFile "bundle.zip" 5 [.otherFile "x_main.jpg" 1]))
        ⟨[], 0⟩
        (fun (es : List FNode) (s : ScratchState) =>
          ((Except.ok es.length : Except PyErr Nat), s))).2).active =
      (⟨[], 0⟩ : ScratchState).active :=
  ⟨fun _ _ => rfl, by decide, by decide,
   (C6_archive_two_entry_invariant
      (some (.archiveFile "bundle.zip" 5 [.otherFile "x_main.jpg" 1])) ⟨[], 0⟩
      (fun es s => ((Except.ok es.length : Except PyErr Nat), s))
      (fun _ _ => rfl)).1 "bundle.zip" 5 [.otherFile "x_main.jpg" 1] rfl
      (by decide) (by decide),
   (C6_archive_two_entry_invariant
      (some (.archiveFile "bundle.zip" 5 [.otherFile "x_main.jpg" 1])) ⟨[], 0⟩
      (fun es s => ((Except.ok es.length : Except PyErr Nat), s))
      (fun _ _ => rfl)).2⟩

/-- Claim C7 (counterexample): an existing, zero-byte file named `a.zip`
passes every pre-extraction check of `_unpack_archive` — the failure it
produces is the extraction-time read error, after the scratch directory was
already allocated (the allocation counter advanced from 0 to 1) — so there is
no non-zero-size validation; moreover `.tar.gz` is never recognized (the
suffix of `a.tar.gz` is only `.gz`), and a missing archive raises the
file-not-found error rather than the invalid-archive one. -/
theorem C7_no_size_check_counterexample :
    _unpack_archive (some (.otherFile "a.zip" 0)) ⟨[], 0⟩
        (fun (es : List FNode) (s : ScratchState) =>
          ((Except.ok es.length : Except PyErr Nat), s)) =
      (.error (.archiveReadError "a.zip"), ⟨[], 1⟩) ∧
    _is_archive "a.tar.gz" = false ∧
    _unpack_archive (none : Option FNode) ⟨[], 0⟩
        (fun (es : List FNode) (s : ScratchState) =>
          ((Except.ok es.length : Except PyErr Nat), s)) =
      (.error (.archiveNotFound ""), ⟨[], 0⟩) :=
  ⟨rfl, by decide, rfl⟩

/-- Claim C7 as amended: before extracting, `_unpack_archive` validates only
that the path exists and is a regular file (failing with the file-not-found
error) and that its lowercased final suffix is a supported archive suffix —
effectively `.zip`, `.tar`, `.tgz`, since `.tar.gz` can never match a final
suffix — failing with the unsupported-format error; it never reads the file's
size, so validation treats a zero-byte archive like any other. -/
theorem C7_validation_amended {α : Type} (st : ScratchState)
    (caller : List FNode → ScratchState → Except PyErr α × ScratchState) :
    (∀ arch, (fexists arch && fisfile arch) = false →
        _unpack_archive arch st caller =
          (.error (.archiveNotFound (fnameOpt arch)), st)) ∧
    (∀ arch, (fexists arch && fisfile arch) = true →
        _is_archive (fnameOpt arch) = false →
        _unpack_archive arch st caller =
          (.error (.unsupportedArchiveFormat (fnameOpt arch)), st)) ∧
    (_is_archive "a.zip" = true ∧ _is_archive "a.tar" = true ∧
     _is_archive "a.tgz" = true ∧ _is_archive "a.tar.gz" = false) ∧
    (∀ name s1 s2 entries,
        _unpack_archive (some (.archiveFile name s1 entries)) st caller =
        _unpack_archive (some (.archiveFile name s2 entries)) st caller) := by
  refine ⟨?_, ?_, by decide, ?_⟩
  · intro arch hmiss
    rcases arch with _ | n
    · simp [_unpack_archive, fexists, fnameOpt]
    · rcases n with ⟨nm, sz, fmt, w, h⟩ | ⟨nm, sz, w, h, d⟩ | ⟨nm, sz, es⟩ | ⟨nm, sz⟩ | ⟨nm, cs⟩ <;>
        simp [fexists, fisfile] at hmiss ⊢
      simp [_unpack_archive, fexists, fisfile, fnameOpt]
  · intro arch hfile hfmt
    rcases arch with _ | n
    · simp [fexists] at hfile
    · rcases n with ⟨nm, sz, fmt, w, h⟩ | ⟨nm, sz, w, h, d⟩ | ⟨nm, sz, es⟩ | ⟨nm, sz⟩ | ⟨nm, cs⟩ <;>
        simp [fnameOpt, fname] at hfmt <;>
        simp [_unpack_archive, fexists, fisfile, fnameOpt, fname, hfmt]
      simp [fexists, fisfile] at hfile
  · intro name s1 s2 entries
    simp [_unpack_archive, fexists, fisfile, fnameOpt, fname, shutil_unpack]

/-- Witness for C7 as amended: concrete instances of each validation clause. -/
theorem C7_validation_amended_witness :
    (fexists (none : Option FNode) && fisfile none) = false ∧
    _unpack_archive (none : Option FNode) ⟨[], 0⟩
        (fun (es : List FNode) (s : ScratchState) =>
          ((Except.ok es.length : Except PyErr Nat), s)) =
      (.error (.archiveNotFound (fnameOpt (none : Option FNode))), ⟨[], 0⟩) ∧
    (fexists (some (.otherFile "b.txt" 3)) && fisfile (some (.otherFile "b.txt" 3))) = true ∧
    _is_archive (fnameOpt (some (.otherFile "b.txt" 3))) = false ∧
    _unpack_archive (some (.otherFile "b.txt" 3)) ⟨[], 0⟩
        (fun (es : List FNode) (s : ScratchState) =>
          ((Except.ok es.length : Except PyErr Nat), s)) =
      (.error (.unsupportedArchiveFormat (fnameOpt (some (.otherFile "b.txt" 3)))), ⟨[], 0⟩) ∧
    _unpack_archive (some (.archiveFile "c.zip" 0 [])) ⟨[], 0⟩
        (fun (es : List FNode) (s : ScratchState) =>
          ((Except.ok es.length : Except PyErr Nat), s)) =
      _unpack_archive (some (.archiveFile "c.zip" 9 [])) ⟨[], 0⟩
        (fun (es : List FNode) (s : ScratchState) =>
          ((Except.ok es.length : Except PyErr Nat), s)) :=
  ⟨by decide,
   (C7_validation_amended ⟨[], 0⟩
      (fun es s => ((Except.ok es.length : Except PyErr Nat), s))).1 none (by decide),
   by decide, by decide,
   (C7_validation_amended ⟨[], 0⟩
      (fun es s => ((Except.ok es.length : Except PyErr Nat), s))).2.1
     (some (.otherFile "b.txt" 3)) (by decide) (by decide),
   (C7_validation_amended ⟨[], 0⟩
      (fun es s => ((Except.ok es.length : Except PyErr Nat), s))).2.2.2 "c.zip" 0 9 []⟩

/-- Claim C8 (refuted, code bug): a loose `photo2.jpg` whose decoded format
is JPEG is never copied at all — `process_data` raises `AttributeError`
inside the skip check before reaching the image branch — and even that
branch's target name, `stem + "." + format.lower()`, is `photo2.jpeg`, not
the verbatim `photo2.jpg` the claim requires. -/
theorem C8_image_copy_never_verbatim :
    (process_data (some (.dirNode "input" [.imageFile "photo2.jpg" 20 "JPEG" 800 600]))
        [] false ⟨[], 0⟩).1 =
      .error (.attributeError "str object has no attribute stem") ∧
    _already_exists (.pystr (pstem "photo2.jpg")) [] =
      .error (.attributeError "str object has no attribute stem") ∧
    _get_image_extension (some (.imageFile "photo2.jpg" 20 "JPEG" 800 600)) = .ok "jpeg" ∧
    pstem "photo2.jpg" ++ "." ++ "jpeg" = "photo2.jpeg" ∧
    "photo2.jpeg" ≠ "photo2.jpg" :=
  ⟨rfl, rfl, rfl, rfl, by decide⟩

/-- Claim C9 (refuted, code bug): `process_data` computes no batch-start
existence snapshot — each entry calls `_already_exists` against the live
destination listing of that moment (the helper's result is a function of the
listing passed at each call), and the call as written passes a `str`, so it
raises `AttributeError` on the first entry instead of making any skip
decision. -/
theorem C9_no_upfront_snapshot :
    (process_data (some (.dirNode "input"
        [.imageFile "a_main.png" 5 "PNG" 2 2, .imageFile "b_main.png" 6 "PNG" 2 2]))
        [] false ⟨[], 0⟩).1 =
      .error (.attributeError "str object has no attribute stem") ∧
    _already_exists (.pypath "a.jpg") [.imageFile "a.png" 1 "PNG" 1 1] = .ok true ∧
    _already_exists (.pypath "a.jpg") [] = .ok false :=
  ⟨rfl, rfl, rfl⟩

/-- Claim C10: a directory whose only child is a single image named
`main_overlay.png` — matching both substring conventions — resolves
successfully, returning the very same file as media and as overlay. -/
theorem C10_same_file_both_roles :
    get_media_and_overlay_file
        (some (.dirNode "memories1" [.imageFile "main_overlay.png" 7 "PNG" 10 10])) =
      .ok (.imageFile "main_overlay.png" 7 "PNG" 10 10,
           .imageFile "main_overlay.png" 7 "PNG" 10 10) :=
  rfl

end SnapMerge
